import Mathlib

/-
Verification of the quote-call-parameter builder (`SwapQuoter.quoteCallParameters`
in `src/quoter.ts`) of the v3-sdk repository, as a shallow embedding in Lean 4.

The builder is a pure translation function: given a swap route, an amount,
a trade type and options, it selects a quoter function name and the argument
list to hand to an ABI encoder, and returns the resulting call parameters
paired with a zero native-currency value.  The ABI encoder is an external
collaborator, so calldata is modelled symbolically as the data handed to it
(interface choice, function name, argument list); the builder's two helper
utilities (`toHex`, `encodeRouteToPath`) live in `./utils`, outside the
sources provided, and are modelled from the specification's description.
-/

namespace V3SDK

/-- Trade type enumeration from `@uniswap/sdk-core`: exact input or exact output. -/
inductive TradeType where
  | EXACT_INPUT : TradeType
  | EXACT_OUTPUT : TradeType
deriving DecidableEq

/-- A pool, as read by `quoteCallParameters`: only its fee tier is consulted.
`FeeAmount` is a numeric enumeration, embedded as the underlying number. -/
structure Pool where
  fee : Nat
deriving DecidableEq

instance : Inhabited Pool := ⟨Pool.mk 0⟩

/-- A token, as read by `quoteCallParameters`: only its address string is consulted. -/
structure Token where
  address : String
deriving DecidableEq

instance : Inhabited Token := ⟨Token.mk ""⟩

/-- A route: an ordered list of pools plus the ordered token path. -/
structure Route where
  pools : List Pool
  tokenPath : List Token
deriving DecidableEq

/-- A currency amount: a currency reference paired with its integer quantity
(the `quotient` of the underlying fraction).  Only the quotient is read. -/
structure CurrencyAmount (α : Type) where
  currency : α
  quotient : Nat

/-- Optional arguments to send to the quoter (`QuoteOptions` in `quoter.ts`):
an optional price limit and an optional switch to the QuoterV2 interface. -/
structure QuoteOptions where
  sqrtPriceLimitX96 : Option Nat
  useQuoterV2 : Option Bool
deriving DecidableEq

/-- Modelled from the spec: the hex encoding utility `toHex` (imported from
`./utils`, which is not among the provided sources): "given a non-negative
integer, returns its canonical lowercase hex string representation prefixed
per standard convention; given 0, returns the zero-value encoding".  The
spec's concrete scenarios write the zero encoding as the two-character hex
string for zero with the standard 0x prefix. -/
def toHex (n : Nat) : String :=
  "0x" ++ String.mk (Nat.toDigits 16 n)

/-- Modelled from the spec: the path-encoder collaborator `encodeRouteToPath`
(imported from `./utils`, which is not among the provided sources): "given an
ordered route (tokens + pools) and a reverse flag, returns a packed
byte-string path (each hop contributing a token address and fee tier,
concatenated, optionally in reverse hop order)". -/
def encodeRouteToPath (route : Route) (exactOutput : Bool) : String :=
  let hops := (route.tokenPath.zip route.pools).map
    (fun tp => tp.1.address ++ toHex tp.2.fee)
  String.join (if exactOutput then hops.reverse else hops)

/-- The two fixed quoter interface definitions the builder can encode against. -/
inductive SwapInterface where
  | V1 : SwapInterface
  | V2 : SwapInterface
deriving DecidableEq

/-- A plain ABI argument value: a byte/hex string or a number (fee tier). -/
inductive AbiValue where
  | str : String → AbiValue
  | num : Nat → AbiValue
deriving DecidableEq

/-- An argument handed to the ABI encoder: either a plain positional value or
a single structured record (a keyed tuple, keys in insertion order, as a
JavaScript object literal carries them). -/
inductive AbiArg where
  | val : AbiValue → AbiArg
  | record : List (String × AbiValue) → AbiArg
deriving DecidableEq

/-- The data handed to the external ABI-encoder collaborator
(`Interface.encodeFunctionData`): the selected interface, the function name,
and the argument list.  The encoder is deterministic, so two equal `Calldata`
values encode to byte-identical calldata. -/
structure Calldata where
  iface : SwapInterface
  fn : String
  args : List AbiArg
deriving DecidableEq

/-- The result type of the builder (`MethodParameters`): the symbolic calldata
and the native-currency value string. -/
structure MethodParameters where
  calldata : Calldata
  value : String
deriving DecidableEq

/-- Embedding of `SwapQuoter.quoteCallParameters` from `src/quoter.ts`.

The JavaScript object literal for the single-hop parameters is embedded as a
keyed list in insertion order; the QuoterV2 exact-input rename first appends
the `amountIn` key and then deletes the `amount` key, exactly as the source's
property assignment and `delete` do.  `invariant` throwing is embedded as
`Except.error` with the invariant's message. -/
def quoteCallParameters {α : Type} (route : Route) (amount : CurrencyAmount α)
    (tradeType : TradeType) (options : QuoteOptions) :
    Except String MethodParameters :=
  let singleHop : Bool := route.pools.length == 1
  let quoteAmount : String := toHex amount.quotient
  let useV2 : Bool := options.useQuoterV2.getD false
  let swapInterface : SwapInterface :=
    if useV2 then SwapInterface.V2 else SwapInterface.V1
  if singleHop then
    let quoteV2Params : List (String × AbiValue) :=
      [("amount", AbiValue.str quoteAmount),
       ("fee", AbiValue.num (route.pools.getD 0 default).fee),
       ("sqrtPriceLimitX96", AbiValue.str (toHex (options.sqrtPriceLimitX96.getD 0))),
       ("tokenIn", AbiValue.str (route.tokenPath.getD 0 default).address),
       ("tokenOut", AbiValue.str (route.tokenPath.getD 1 default).address)]
    let quoteV2Params : List (String × AbiValue) :=
      if useV2 && (tradeType == TradeType.EXACT_INPUT) then
        (quoteV2Params ++ [("amountIn", AbiValue.str quoteAmount)]).filter
          (fun kv => kv.1 != "amount")
      else quoteV2Params
    let tradeTypeFunctionName : String :=
      if tradeType == TradeType.EXACT_INPUT then "quoteExactInputSingle"
      else "quoteExactOutputSingle"
    let quoterV1Params : List AbiArg := quoteV2Params.map (fun kv => AbiArg.val kv.2)
    let calldata : Calldata :=
      Calldata.mk swapInterface tradeTypeFunctionName
        (if useV2 then [AbiArg.record quoteV2Params] else quoterV1Params)
    Except.ok (MethodParameters.mk calldata (toHex 0))
  else if options.sqrtPriceLimitX96.isSome then
    Except.error "MULTIHOP_PRICE_LIMIT"
  else
    let path : String := encodeRouteToPath route (tradeType == TradeType.EXACT_OUTPUT)
    let tradeTypeFunctionName : String :=
      if tradeType == TradeType.EXACT_INPUT then "quoteExactInput"
      else "quoteExactOutput"
    let calldata : Calldata :=
      Calldata.mk swapInterface tradeTypeFunctionName
        [AbiArg.val (AbiValue.str path), AbiArg.val (AbiValue.str quoteAmount)]
    Except.ok (MethodParameters.mk calldata (toHex 0))

/-- C1: for every single-hop route with `useQuoterV2` false (absent or set to
false), the argument list handed to the ABI encoder is a flat positional list
in exactly the order (amount, fee, priceLimit, tokenIn, tokenOut), with the
amount always present as the first element: the amount-rename branch is
unreachable when `useQuoterV2` is false. -/
theorem quoteCallParameters_v1_single_hop_positional {α : Type}
    (p : Pool) (t0 t1 : Token) (ts : List Token) (amount : CurrencyAmount α)
    (tradeType : TradeType) (options : QuoteOptions)
    (hV2 : options.useQuoterV2.getD false = false) :
    Except.map (fun m => m.calldata.args)
        (quoteCallParameters (Route.mk [p] (t0 :: t1 :: ts)) amount tradeType options)
      = Except.ok
          [AbiArg.val (AbiValue.str (toHex amount.quotient)),
           AbiArg.val (AbiValue.num p.fee),
           AbiArg.val (AbiValue.str (toHex (options.sqrtPriceLimitX96.getD 0))),
           AbiArg.val (AbiValue.str t0.address),
           AbiArg.val (AbiValue.str t1.address)] := by
  simp [quoteCallParameters, hV2, Except.map]

/-- Witness for C1 at a concrete single-hop input with a price limit present. -/
theorem quoteCallParameters_v1_single_hop_positional_witness :
    (QuoteOptions.mk (some 5) (some false)).useQuoterV2.getD false = false ∧
    Except.map (fun m => m.calldata.args)
        (quoteCallParameters (Route.mk [Pool.mk 3000] (Token.mk "0xa" :: Token.mk "0xb" :: []))
          (CurrencyAmount.mk 0 7) TradeType.EXACT_INPUT (QuoteOptions.mk (some 5) (some false)))
      = Except.ok
          [AbiArg.val (AbiValue.str (toHex (CurrencyAmount.mk 0 7).quotient)),
           AbiArg.val (AbiValue.num (Pool.mk 3000).fee),
           AbiArg.val (AbiValue.str (toHex ((QuoteOptions.mk (some 5) (some false)).sqrtPriceLimitX96.getD 0))),
           AbiArg.val (AbiValue.str (Token.mk "0xa").address),
           AbiArg.val (AbiValue.str (Token.mk "0xb").address)] :=
  ⟨rfl, quoteCallParameters_v1_single_hop_positional (Pool.mk 3000) (Token.mk "0xa")
    (Token.mk "0xb") [] (CurrencyAmount.mk 0 7) TradeType.EXACT_INPUT
    (QuoteOptions.mk (some 5) (some false)) rfl⟩

/-- C2: for every multi-hop route, both trade types and both interface
versions, a present price limit makes `quoteCallParameters` fail with the
`MULTIHOP_PRICE_LIMIT` invariant error (no partial result: the error carries
no method parameters), and an absent price limit never raises that error. -/
theorem quoteCallParameters_multihop_price_limit {α : Type}
    (route : Route) (amount : CurrencyAmount α) (tradeType : TradeType)
    (options : QuoteOptions) (hmulti : 1 < route.pools.length) :
    (options.sqrtPriceLimitX96.isSome →
        quoteCallParameters route amount tradeType options
          = Except.error "MULTIHOP_PRICE_LIMIT") ∧
    (options.sqrtPriceLimitX96 = none →
        ∃ mp, quoteCallParameters route amount tradeType options = Except.ok mp) := by
  have hne : route.pools.length ≠ 1 := (Nat.ne_of_lt hmulti).symm
  constructor
  · intro hsome
    simp [quoteCallParameters, hne, hsome]
  · intro hnone
    simp [quoteCallParameters, hne, hnone]

/-- Witness for C2 at a concrete two-pool route with price limit 77. -/
theorem quoteCallParameters_multihop_price_limit_witness :
    1 < (Route.mk [Pool.mk 500, Pool.mk 3000]
          [Token.mk "0xa", Token.mk "0xb", Token.mk "0xc"]).pools.length ∧
    (((QuoteOptions.mk (some 77) none).sqrtPriceLimitX96.isSome →
        quoteCallParameters
            (Route.mk [Pool.mk 500, Pool.mk 3000]
              [Token.mk "0xa", Token.mk "0xb", Token.mk "0xc"])
            (CurrencyAmount.mk 0 7) TradeType.EXACT_OUTPUT (QuoteOptions.mk (some 77) none)
          = Except.error "MULTIHOP_PRICE_LIMIT") ∧
     ((QuoteOptions.mk (some 77) none).sqrtPriceLimitX96 = none →
        ∃ mp, quoteCallParameters
            (Route.mk [Pool.mk 500, Pool.mk 3000]
              [Token.mk "0xa", Token.mk "0xb", Token.mk "0xc"])
            (CurrencyAmount.mk 0 7) TradeType.EXACT_OUTPUT (QuoteOptions.mk (some 77) none)
          = Except.ok mp)) :=
  ⟨by decide, quoteCallParameters_multihop_price_limit
    (Route.mk [Pool.mk 500, Pool.mk 3000]
      [Token.mk "0xa", Token.mk "0xb", Token.mk "0xc"])
    (CurrencyAmount.mk 0 7) TradeType.EXACT_OUTPUT (QuoteOptions.mk (some 77) none)
    (by decide)⟩

/-- C3: whenever `quoteCallParameters` returns a result, the encoded function
name is `quoteExactInputSingle` / `quoteExactOutputSingle` for single-hop
routes and `quoteExactInput` / `quoteExactOutput` for multi-hop routes,
according to the trade type, for every route and both interface versions. -/
theorem quoteCallParameters_function_name {α : Type}
    (route : Route) (amount : CurrencyAmount α) (tradeType : TradeType)
    (options : QuoteOptions) (mp : MethodParameters)
    (h : quoteCallParameters route amount tradeType options = Except.ok mp) :
    mp.calldata.fn =
      if route.pools.length == 1 then
        (if tradeType == TradeType.EXACT_INPUT then "quoteExactInputSingle"
         else "quoteExactOutputSingle")
      else
        (if tradeType == TradeType.EXACT_INPUT then "quoteExactInput"
         else "quoteExactOutput") := by
  unfold quoteCallParameters at h
  cases hsingle : (route.pools.length == 1) with
  | true =>
    simp [hsingle] at h
    simp [hsingle, ← h]
  | false =>
    cases hlim : options.sqrtPriceLimitX96 with
    | some v => simp [hsingle, hlim] at h
    | none =>
      simp [hsingle, hlim] at h
      simp [hsingle, ← h]

/-- Witness for C3 at a concrete two-pool exact-output call. -/
theorem quoteCallParameters_function_name_witness :
    quoteCallParameters
        (Route.mk [Pool.mk 500, Pool.mk 3000]
          [Token.mk "0xa", Token.mk "0xb", Token.mk "0xc"])
        (CurrencyAmount.mk 0 7) TradeType.EXACT_OUTPUT (QuoteOptions.mk none none)
      = Except.ok (MethodParameters.mk
          (Calldata.mk SwapInterface.V1 "quoteExactOutput"
            [AbiArg.val (AbiValue.str (encodeRouteToPath
              (Route.mk [Pool.mk 500, Pool.mk 3000]
                [Token.mk "0xa", Token.mk "0xb", Token.mk "0xc"]) true)),
             AbiArg.val (AbiValue.str (toHex 7))])
          (toHex 0)) ∧
    (MethodParameters.mk
          (Calldata.mk SwapInterface.V1 "quoteExactOutput"
            [AbiArg.val (AbiValue.str (encodeRouteToPath
              (Route.mk [Pool.mk 500, Pool.mk 3000]
                [Token.mk "0xa", Token.mk "0xb", Token.mk "0xc"]) true)),
             AbiArg.val (AbiValue.str (toHex 7))])
          (toHex 0)).calldata.fn =
      if (Route.mk [Pool.mk 500, Pool.mk 3000]
            [Token.mk "0xa", Token.mk "0xb", Token.mk "0xc"]).pools.length == 1 then
        (if TradeType.EXACT_OUTPUT == TradeType.EXACT_INPUT then "quoteExactInputSingle"
         else "quoteExactOutputSingle")
      else
        (if TradeType.EXACT_OUTPUT == TradeType.EXACT_INPUT then "quoteExactInput"
         else "quoteExactOutput") :=
  ⟨rfl, quoteCallParameters_function_name
    (Route.mk [Pool.mk 500, Pool.mk 3000]
      [Token.mk "0xa", Token.mk "0xb", Token.mk "0xc"])
    (CurrencyAmount.mk 0 7) TradeType.EXACT_OUTPUT (QuoteOptions.mk none none)
    (MethodParameters.mk
      (Calldata.mk SwapInterface.V1 "quoteExactOutput"
        [AbiArg.val (AbiValue.str (encodeRouteToPath
          (Route.mk [Pool.mk 500, Pool.mk 3000]
            [Token.mk "0xa", Token.mk "0xb", Token.mk "0xc"]) true)),
         AbiArg.val (AbiValue.str (toHex 7))])
      (toHex 0)) rfl⟩

/-- C4: for every multi-hop route without a price limit, the path argument is
the path-encoder output with reverse flag true exactly when the trade type is
exact-output, and the calldata is encoded with positional arguments
(path, quoteAmount) against the interface selected by `useQuoterV2`. -/
theorem quoteCallParameters_multihop_encoding {α : Type}
    (route : Route) (amount : CurrencyAmount α) (tradeType : TradeType)
    (options : QuoteOptions) (hmulti : 1 < route.pools.length)
    (hnl : options.sqrtPriceLimitX96 = none) :
    quoteCallParameters route amount tradeType options
      = Except.ok (MethodParameters.mk
          (Calldata.mk
            (if options.useQuoterV2.getD false then SwapInterface.V2 else SwapInterface.V1)
            (if tradeType == TradeType.EXACT_INPUT then "quoteExactInput"
             else "quoteExactOutput")
            [AbiArg.val (AbiValue.str
              (encodeRouteToPath route (tradeType == TradeType.EXACT_OUTPUT))),
             AbiArg.val (AbiValue.str (toHex amount.quotient))])
          (toHex 0)) := by
  have hne : route.pools.length ≠ 1 := (Nat.ne_of_lt hmulti).symm
  simp [quoteCallParameters, hne, hnl]

/-- Witness for C4 at a concrete two-pool exact-output call on the V2 interface. -/
theorem quoteCallParameters_multihop_encoding_witness :
    1 < (Route.mk [Pool.mk 500, Pool.mk 3000]
          [Token.mk "0xa", Token.mk "0xb", Token.mk "0xc"]).pools.length ∧
    (QuoteOptions.mk none (some true)).sqrtPriceLimitX96 = none ∧
    quoteCallParameters
        (Route.mk [Pool.mk 500, Pool.mk 3000]
          [Token.mk "0xa", Token.mk "0xb", Token.mk "0xc"])
        (CurrencyAmount.mk 0 7) TradeType.EXACT_OUTPUT (QuoteOptions.mk none (some true))
      = Except.ok (MethodParameters.mk
          (Calldata.mk
            (if (QuoteOptions.mk none (some true)).useQuoterV2.getD false
             then SwapInterface.V2 else SwapInterface.V1)
            (if TradeType.EXACT_OUTPUT == TradeType.EXACT_INPUT then "quoteExactInput"
             else "quoteExactOutput")
            [AbiArg.val (AbiValue.str
              (encodeRouteToPath
                (Route.mk [Pool.mk 500, Pool.mk 3000]
                  [Token.mk "0xa", Token.mk "0xb", Token.mk "0xc"])
                (TradeType.EXACT_OUTPUT == TradeType.EXACT_OUTPUT))),
             AbiArg.val (AbiValue.str (toHex (CurrencyAmount.mk 0 7).quotient))])
          (toHex 0)) :=
  ⟨by decide, rfl, quoteCallParameters_multihop_encoding
    (Route.mk [Pool.mk 500, Pool.mk 3000]
      [Token.mk "0xa", Token.mk "0xb", Token.mk "0xc"])
    (CurrencyAmount.mk 0 7) TradeType.EXACT_OUTPUT (QuoteOptions.mk none (some true))
    (by decide) rfl⟩

/-- C5: for every single-hop route with `useQuoterV2` true, the parameter
record is handed to the ABI encoder as a single structured argument (for both
trade types), and when the trade type is exact-input the record carries the
quote amount under the key `amountIn`, contains no generic `amount` key, and
keeps its fee, price limit, tokenIn and tokenOut fields unchanged. -/
theorem quoteCallParameters_v2_single_hop_record {α : Type}
    (p : Pool) (t0 t1 : Token) (ts : List Token) (amount : CurrencyAmount α)
    (limit : Option Nat) :
    (∀ tradeType : TradeType, ∃ r,
        Except.map (fun m => m.calldata.args)
            (quoteCallParameters (Route.mk [p] (t0 :: t1 :: ts)) amount tradeType
              (QuoteOptions.mk limit (some true)))
          = Except.ok [AbiArg.record r]) ∧
    Except.map (fun m => m.calldata.args)
        (quoteCallParameters (Route.mk [p] (t0 :: t1 :: ts)) amount
          TradeType.EXACT_INPUT (QuoteOptions.mk limit (some true)))
      = Except.ok [AbiArg.record
          [("fee", AbiValue.num p.fee),
           ("sqrtPriceLimitX96", AbiValue.str (toHex (limit.getD 0))),
           ("tokenIn", AbiValue.str t0.address),
           ("tokenOut", AbiValue.str t1.address),
           ("amountIn", AbiValue.str (toHex amount.quotient))]] := by
  constructor
  · intro tradeType
    cases tradeType with
    | EXACT_INPUT => exact ⟨_, rfl⟩
    | EXACT_OUTPUT => exact ⟨_, rfl⟩
  · rfl

/-- C6: whenever `quoteCallParameters` returns a result, its `value` field is
the hex encoding of zero, independent of all inputs. -/
theorem quoteCallParameters_value_zero {α : Type}
    (route : Route) (amount : CurrencyAmount α) (tradeType : TradeType)
    (options : QuoteOptions) (mp : MethodParameters)
    (h : quoteCallParameters route amount tradeType options = Except.ok mp) :
    mp.value = toHex 0 := by
  unfold quoteCallParameters at h
  cases hsingle : (route.pools.length == 1) with
  | true =>
    simp [hsingle] at h
    simp [← h]
  | false =>
    cases hlim : options.sqrtPriceLimitX96 with
    | some v => simp [hsingle, hlim] at h
    | none =>
      simp [hsingle, hlim] at h
      simp [← h]

/-- Witness for C6 at a concrete single-hop call. -/
theorem quoteCallParameters_value_zero_witness :
    quoteCallParameters (Route.mk [Pool.mk 3000] (Token.mk "0xa" :: Token.mk "0xb" :: []))
        (CurrencyAmount.mk 0 7) TradeType.EXACT_OUTPUT (QuoteOptions.mk none none)
      = Except.ok (MethodParameters.mk
          (Calldata.mk SwapInterface.V1 "quoteExactOutputSingle"
            [AbiArg.val (AbiValue.str (toHex 7)),
             AbiArg.val (AbiValue.num 3000),
             AbiArg.val (AbiValue.str (toHex 0)),
             AbiArg.val (AbiValue.str "0xa"),
             AbiArg.val (AbiValue.str "0xb")])
          (toHex 0)) ∧
    (MethodParameters.mk
        (Calldata.mk SwapInterface.V1 "quoteExactOutputSingle"
          [AbiArg.val (AbiValue.str (toHex 7)),
           AbiArg.val (AbiValue.num 3000),
           AbiArg.val (AbiValue.str (toHex 0)),
           AbiArg.val (AbiValue.str "0xa"),
           AbiArg.val (AbiValue.str "0xb")])
        (toHex 0)).value = toHex 0 :=
  ⟨rfl, quoteCallParameters_value_zero
    (Route.mk [Pool.mk 3000] (Token.mk "0xa" :: Token.mk "0xb" :: []))
    (CurrencyAmount.mk 0 7) TradeType.EXACT_OUTPUT (QuoteOptions.mk none none)
    (MethodParameters.mk
      (Calldata.mk SwapInterface.V1 "quoteExactOutputSingle"
        [AbiArg.val (AbiValue.str (toHex 7)),
         AbiArg.val (AbiValue.num 3000),
         AbiArg.val (AbiValue.str (toHex 0)),
         AbiArg.val (AbiValue.str "0xa"),
         AbiArg.val (AbiValue.str "0xb")])
      (toHex 0)) rfl⟩

/-- C7: `quoteCallParameters` is deterministic: two calls with identical
route, amount, trade type and options return identical results (hence
byte-identical calldata and value under the deterministic encoder). -/
theorem quoteCallParameters_deterministic {α : Type}
    (route1 route2 : Route) (amount1 amount2 : CurrencyAmount α)
    (tradeType1 tradeType2 : TradeType) (options1 options2 : QuoteOptions)
    (hr : route1 = route2) (ha : amount1 = amount2)
    (ht : tradeType1 = tradeType2) (ho : options1 = options2) :
    quoteCallParameters route1 amount1 tradeType1 options1
      = quoteCallParameters route2 amount2 tradeType2 options2 := by
  subst hr
  subst ha
  subst ht
  subst ho
  rfl

/-- Witness for C7 at a concrete single-hop call. -/
theorem quoteCallParameters_deterministic_witness :
    quoteCallParameters (Route.mk [Pool.mk 3000] [Token.mk "0xa", Token.mk "0xb"])
        (CurrencyAmount.mk 0 7) TradeType.EXACT_INPUT (QuoteOptions.mk none none)
      = quoteCallParameters (Route.mk [Pool.mk 3000] [Token.mk "0xa", Token.mk "0xb"])
        (CurrencyAmount.mk 0 7) TradeType.EXACT_INPUT (QuoteOptions.mk none none) :=
  quoteCallParameters_deterministic
    (Route.mk [Pool.mk 3000] [Token.mk "0xa", Token.mk "0xb"])
    (Route.mk [Pool.mk 3000] [Token.mk "0xa", Token.mk "0xb"])
    (CurrencyAmount.mk 0 7) (CurrencyAmount.mk 0 7)
    TradeType.EXACT_INPUT TradeType.EXACT_INPUT
    (QuoteOptions.mk none none) (QuoteOptions.mk none none)
    rfl rfl rfl rfl

/-- C8: the output depends on the amount only through its integer quotient:
two amounts with equal quotient but arbitrary (even differently typed)
currency references give identical results. -/
theorem quoteCallParameters_amount_quotient_only {α β : Type}
    (route : Route) (a : CurrencyAmount α) (b : CurrencyAmount β)
    (tradeType : TradeType) (options : QuoteOptions)
    (h : a.quotient = b.quotient) :
    quoteCallParameters route a tradeType options
      = quoteCallParameters route b tradeType options := by
  obtain ⟨ca, qa⟩ := a
  obtain ⟨cb, qb⟩ := b
  have hq : qa = qb := h
  subst hq
  rfl

/-- Witness for C8: a string-currency amount and a numeric-currency amount
with the same quotient give the same result. -/
theorem quoteCallParameters_amount_quotient_only_witness :
    (CurrencyAmount.mk "ETH" 42).quotient = (CurrencyAmount.mk 0 42).quotient ∧
    quoteCallParameters (Route.mk [Pool.mk 3000] [Token.mk "0xa", Token.mk "0xb"])
        (CurrencyAmount.mk "ETH" 42) TradeType.EXACT_INPUT (QuoteOptions.mk none none)
      = quoteCallParameters (Route.mk [Pool.mk 3000] [Token.mk "0xa", Token.mk "0xb"])
        (CurrencyAmount.mk 0 42) TradeType.EXACT_INPUT (QuoteOptions.mk none none) :=
  ⟨rfl, quoteCallParameters_amount_quotient_only
    (Route.mk [Pool.mk 3000] [Token.mk "0xa", Token.mk "0xb"])
    (CurrencyAmount.mk "ETH" 42) (CurrencyAmount.mk 0 42)
    TradeType.EXACT_INPUT (QuoteOptions.mk none none) rfl⟩

/-- C9: for every multi-hop route, supplying the price limit with value 0
(the documented no-limit value) still raises the invariant error: the check
tests presence of the option, not its value. -/
theorem quoteCallParameters_zero_limit_rejected {α : Type}
    (route : Route) (amount : CurrencyAmount α) (tradeType : TradeType)
    (options : QuoteOptions) (hmulti : 1 < route.pools.length)
    (h0 : options.sqrtPriceLimitX96 = some 0) :
    quoteCallParameters route amount tradeType options
      = Except.error "MULTIHOP_PRICE_LIMIT" := by
  have hne : route.pools.length ≠ 1 := (Nat.ne_of_lt hmulti).symm
  simp [quoteCallParameters, hne, h0]

/-- Witness for C9 at a concrete two-pool route with price limit 0. -/
theorem quoteCallParameters_zero_limit_rejected_witness :
    1 < (Route.mk [Pool.mk 500, Pool.mk 3000]
          [Token.mk "0xa", Token.mk "0xb", Token.mk "0xc"]).pools.length ∧
    (QuoteOptions.mk (some 0) none).sqrtPriceLimitX96 = some 0 ∧
    quoteCallParameters
        (Route.mk [Pool.mk 500, Pool.mk 3000]
          [Token.mk "0xa", Token.mk "0xb", Token.mk "0xc"])
        (CurrencyAmount.mk 0 7) TradeType.EXACT_INPUT (QuoteOptions.mk (some 0) none)
      = Except.error "MULTIHOP_PRICE_LIMIT" :=
  ⟨by decide, rfl, quoteCallParameters_zero_limit_rejected
    (Route.mk [Pool.mk 500, Pool.mk 3000]
      [Token.mk "0xa", Token.mk "0xb", Token.mk "0xc"])
    (CurrencyAmount.mk 0 7) TradeType.EXACT_INPUT (QuoteOptions.mk (some 0) none)
    (by decide) rfl⟩

/-- C10: for every single-hop route, both trade types and both interface
versions, omitting the price limit and supplying it as 0 give identical
results. -/
theorem quoteCallParameters_limit_zero_default {α : Type}
    (p : Pool) (ts : List Token) (amount : CurrencyAmount α)
    (tradeType : TradeType) (use2 : Option Bool) :
    quoteCallParameters (Route.mk [p] ts) amount tradeType (QuoteOptions.mk none use2)
      = quoteCallParameters (Route.mk [p] ts) amount tradeType
          (QuoteOptions.mk (some 0) use2) := by
  rfl

end V3SDK
